import Mathlib

/-!
Verification development for the qr-project backend (src/backend/app).

This file gives a shallow embedding of the ticket data model (models.py),
the CRUD layer (crud.py) and the redemption / statistics endpoints
(main.py), and proves the stated properties of the redemption protocol
against that embedding.

Modelling conventions: the database is passed explicitly as a value; the
wall clock is an explicit `now : Nat` parameter; freshly generated UUID
primary keys are explicit `freshId : Nat` parameters; the outcome of each
outbound Telegram HTTP post (whose exceptions the source swallows) is an
explicit oracle `Nat → Bool` indexed by the position of the post within
one request handler.
-/

/-- models.QRCodeStatus: the str enum of ticket states. -/
inductive QRCodeStatus where
  | created
  | issued
  | used
  | invalid
  deriving DecidableEq, Repr, BEq

/-- The string payload of the str enum (its .value in the source). -/
def QRCodeStatus.value : QRCodeStatus → String
  | .created => "created"
  | .issued => "issued"
  | .used => "used"
  | .invalid => "invalid"

/-- models.QRCode: one row of the qrcodes table. -/
structure QRCode where
  id : Nat
  status : QRCodeStatus
  telegram_id : Option String
  user_first_name : Option String
  user_username : Option String
  created_at : Nat
  issued_at : Option Nat
  used_at : Option Nat
  deriving DecidableEq, Repr

/-- models.QRStats: the singleton counters row. -/
structure QRStats where
  success_count : Nat
  fail_count : Nat
  deriving DecidableEq, Repr

/-- schemas.QRCodeCreate: the issuance request body. -/
structure QRCodeCreate where
  telegram_id : String
  user_first_name : Option String
  user_username : Option String
  deriving DecidableEq, Repr

/-- The database: the qrcodes table (as an insertion-ordered list, with
primary-key uniqueness on id assumed where relevant) and the optional
singleton stats row. -/
structure DB where
  qrcodes : List QRCode
  stats : Option QRStats
  deriving DecidableEq, Repr

/-- crud.get_qr_code: first row whose id matches. -/
def get_qr_code (db : DB) (qr_code_id : Nat) : Option QRCode :=
  db.qrcodes.find? (fun q => q.id == qr_code_id)

/-- crud.get_qr_code_by_telegram_id: first row whose telegram_id matches. -/
def get_qr_code_by_telegram_id (db : DB) (telegram_id : String) : Option QRCode :=
  db.qrcodes.find? (fun q => q.telegram_id == some telegram_id)

/-- crud.create_qr_code: return the existing ticket for this telegram_id
unchanged, or insert a fresh one with status issued and issued_at = now. -/
def create_qr_code (db : DB) (qr_code : QRCodeCreate) (freshId now : Nat) :
    QRCode × DB :=
  match get_qr_code_by_telegram_id db qr_code.telegram_id with
  | some existing_qr_code => (existing_qr_code, db)
  | none =>
    let db_qr_code : QRCode :=
      { id := freshId
        status := QRCodeStatus.issued
        telegram_id := some qr_code.telegram_id
        user_first_name := qr_code.user_first_name
        user_username := qr_code.user_username
        created_at := now
        issued_at := some now
        used_at := none }
    (db_qr_code, { db with qrcodes := db.qrcodes ++ [db_qr_code] })

/-- crud.update_qr_code_status: load the row by id and overwrite its status
unconditionally (no optimistic check); refresh issued_at when the new
status is issued, used_at when it is used. -/
def update_qr_code_status (db : DB) (qr_code_id : Nat) (status : QRCodeStatus)
    (now : Nat) : Option QRCode × DB :=
  match get_qr_code db qr_code_id with
  | none => (none, db)
  | some db_qr_code =>
    let updated : QRCode :=
      { db_qr_code with
        status := status
        issued_at := if status == QRCodeStatus.issued then some now
                     else db_qr_code.issued_at
        used_at := if status == QRCodeStatus.used then some now
                   else db_qr_code.used_at }
    (some updated,
     { db with qrcodes :=
        db.qrcodes.map (fun q => if q.id == qr_code_id then updated else q) })

/-- One attempted Telegram sendMessage post: the chat it was addressed to,
the text, and whether the HTTP delivery succeeded (the handler never
inspects this flag: the bare except swallows any failure). -/
structure NotifyEvent where
  chat_id : Option String
  text : String
  delivered : Bool
  deriving DecidableEq, Repr

/-- The JSONResponse the endpoint returns: HTTP status code plus the
status and message fields of the body. -/
structure JsonResponse where
  statusCode : Nat
  status : String
  message : String
  deriving DecidableEq, Repr

/-- Full server-side mutable state touched by main.py: the database, the
module-level admin_stats dict (as an association list admin ↦ (success,
fail)), and the module-level global_success / global_fail counters. -/
structure ServerState where
  db : DB
  adminStats : List (String × Nat × Nat)
  globalSuccess : Nat
  globalFail : Nat
  deriving DecidableEq, Repr

/-- Result of one check_qr_code request: the HTTP response, the new server
state, and the Telegram posts attempted during the request. -/
structure CheckResult where
  response : JsonResponse
  state : ServerState
  sent : List NotifyEvent
  deriving Repr

/-- main.send_telegram_message: returns immediately when no bot token is
configured, otherwise posts to the Telegram API; any exception of the post
is swallowed, so the delivered flag influences nothing downstream. -/
def send_telegram_message (token : Option String) (delivered : Bool)
    (chat_id : Option String) (text : String) : List NotifyEvent :=
  match token with
  | none => []
  | some _ => [{ chat_id := chat_id, text := text, delivered := delivered }]

/-- The admin_stats dict initialisation: insert (a, 0, 0) when absent. -/
def initAdminStats (l : List (String × Nat × Nat)) (a : String) :
    List (String × Nat × Nat) :=
  if (l.find? (fun e => e.1 == a)).isSome then l else l ++ [(a, 0, 0)]

/-- admin_stats[a].success += 1. -/
def bumpAdminSuccess (l : List (String × Nat × Nat)) (a : String) :
    List (String × Nat × Nat) :=
  l.map (fun e => if e.1 == a then (e.1, e.2.1 + 1, e.2.2) else e)

/-- admin_stats[a].fail += 1. -/
def bumpAdminFail (l : List (String × Nat × Nat)) (a : String) :
    List (String × Nat × Nat) :=
  l.map (fun e => if e.1 == a then (e.1, e.2.1, e.2.2 + 1) else e)

/-- admin_stats[a].success (0 when absent). -/
def adminSuccessOf (l : List (String × Nat × Nat)) (a : String) : Nat :=
  match l.find? (fun e => e.1 == a) with
  | some e => e.2.1
  | none => 0

/-- admin_stats[a].fail (0 when absent). -/
def adminFailOf (l : List (String × Nat × Nat)) (a : String) : Nat :=
  match l.find? (fun e => e.1 == a) with
  | some e => e.2.2
  | none => 0

/-- The statistics tail appended to every admin notification. -/
def statsSuffix (aSucc aFail gSucc gFail : Nat) : String :=
  "\n\nВаша статистика:\n  ✅ Успешно: " ++ toString aSucc ++
  "\n  ⛔ Отклонено: " ++ toString aFail ++
  "\n\nОбщая статистика:\n  ✅ Всего успешно: " ++ toString gSucc ++
  "\n  ⛔ Всего отклонено: " ++ toString gFail

/-- Body of main.check_qr_code after its first line: `db_qr_code` is the
snapshot produced by the initial crud.get_qr_code load, everything else
(admin_stats init, stats row load-or-create, the four outcome branches)
runs against the current state `st`.  Factoring the body over the snapshot
makes the read / act phases of the handler explicit. -/
def check_qr_body (token : Option String) (oracle : Nat → Bool)
    (db_qr_code : Option QRCode) (st : ServerState) (qr_code_id : Nat)
    (admin_telegram_id : Option String) (now : Nat) : CheckResult :=
  let adminStats0 :=
    match admin_telegram_id with
    | some a => initAdminStats st.adminStats a
    | none => st.adminStats
  let stats0 := st.db.stats.getD { success_count := 0, fail_count := 0 }
  let db0 : DB := { st.db with stats := some stats0 }
  match db_qr_code with
  | none =>
    let response : JsonResponse :=
      { statusCode := 404, status := "error", message := "❌ Код не найден" }
    match admin_telegram_id with
    | some a =>
      let adminStats1 := bumpAdminFail adminStats0 a
      let globalFail1 := st.globalFail + 1
      let stats1 := { stats0 with fail_count := stats0.fail_count + 1 }
      let db1 := { db0 with stats := some stats1 }
      { response := response
        state := { db := db1, adminStats := adminStats1,
                   globalSuccess := st.globalSuccess, globalFail := globalFail1 }
        sent := send_telegram_message token (oracle 0) (some a)
          ("❌ Код не найден." ++
            statsSuffix (adminSuccessOf adminStats1 a) (adminFailOf adminStats1 a)
              st.globalSuccess globalFail1) }
    | none =>
      { response := response
        state := { db := db0, adminStats := adminStats0,
                   globalSuccess := st.globalSuccess, globalFail := st.globalFail }
        sent := [] }
  | some qc =>
    if qc.status == QRCodeStatus.used then
      let userSent := send_telegram_message token (oracle 0) qc.telegram_id
        "⛔ Этот QR-код уже был использован ранее. Вход запрещён."
      let response : JsonResponse :=
        { statusCode := 400, status := "error",
          message := "⚠️ Код уже был использован" }
      match admin_telegram_id with
      | some a =>
        let adminStats1 := bumpAdminFail adminStats0 a
        let globalFail1 := st.globalFail + 1
        let stats1 := { stats0 with fail_count := stats0.fail_count + 1 }
        let db1 := { db0 with stats := some stats1 }
        { response := response
          state := { db := db1, adminStats := adminStats1,
                     globalSuccess := st.globalSuccess, globalFail := globalFail1 }
          sent := userSent ++ send_telegram_message token (oracle 1) (some a)
            ("⛔ Этот QR-код уже был использован ранее. Вход запрещён." ++
              statsSuffix (adminSuccessOf adminStats1 a) (adminFailOf adminStats1 a)
                st.globalSuccess globalFail1) }
      | none =>
        { response := response
          state := { db := db0, adminStats := adminStats0,
                     globalSuccess := st.globalSuccess, globalFail := st.globalFail }
          sent := userSent }
    else if qc.status == QRCodeStatus.issued then
      let db1 := (update_qr_code_status db0 qr_code_id QRCodeStatus.used now).2
      let user_info := qc.user_first_name.getD "" ++
        (match qc.user_username with
         | some u => " (@" ++ u ++ ")"
         | none => "")
      let userSent := send_telegram_message token (oracle 0) qc.telegram_id
        "✅ Ваш QR-код успешно отсканирован! Добро пожаловать на мероприятие."
      let response : JsonResponse :=
        { statusCode := 200, status := "ok", message := "✅ Успех! " ++ user_info }
      match admin_telegram_id with
      | some a =>
        let adminStats1 := bumpAdminSuccess adminStats0 a
        let globalSuccess1 := st.globalSuccess + 1
        let stats1 := { stats0 with success_count := stats0.success_count + 1 }
        let db2 := { db1 with stats := some stats1 }
        { response := response
          state := { db := db2, adminStats := adminStats1,
                     globalSuccess := globalSuccess1, globalFail := st.globalFail }
          sent := userSent ++ send_telegram_message token (oracle 1) (some a)
            ("✅ QR-код успешно отсканирован: " ++ user_info ++
              statsSuffix (adminSuccessOf adminStats1 a) (adminFailOf adminStats1 a)
                globalSuccess1 st.globalFail) }
      | none =>
        { response := response
          state := { db := db1, adminStats := adminStats0,
                     globalSuccess := st.globalSuccess, globalFail := st.globalFail }
          sent := userSent }
    else
      let response : JsonResponse :=
        { statusCode := 400, status := "error",
          message := "❓ Неверный статус кода: " ++ qc.status.value }
      match admin_telegram_id with
      | some a =>
        let adminStats1 := bumpAdminFail adminStats0 a
        let globalFail1 := st.globalFail + 1
        let stats1 := { stats0 with fail_count := stats0.fail_count + 1 }
        let db1 := { db0 with stats := some stats1 }
        { response := response
          state := { db := db1, adminStats := adminStats1,
                     globalSuccess := st.globalSuccess, globalFail := globalFail1 }
          sent := send_telegram_message token (oracle 0) (some a)
            ("❓ Неверный статус кода: " ++ qc.status.value ++
              statsSuffix (adminSuccessOf adminStats1 a) (adminFailOf adminStats1 a)
                st.globalSuccess globalFail1) }
      | none =>
        { response := response
          state := { db := db0, adminStats := adminStats0,
                     globalSuccess := st.globalSuccess, globalFail := st.globalFail }
          sent := [] }

/-- main.check_qr_code: load the ticket snapshot, then run the body. -/
def check_qr_code (token : Option String) (oracle : Nat → Bool)
    (st : ServerState) (qr_code_id : Nat) (admin_telegram_id : Option String)
    (now : Nat) : CheckResult :=
  check_qr_body token oracle (get_qr_code st.db qr_code_id) st qr_code_id
    admin_telegram_id now

/-- main.get_stats: snapshot of the counters, (0, 0) when the singleton
stats row does not exist. -/
def get_stats (db : DB) : Nat × Nat :=
  match db.stats with
  | none => (0, 0)
  | some stats => (stats.success_count, stats.fail_count)

/-- Server state right after startup: empty qrcodes table, stats row
initialised to (0, 0), empty admin_stats, zero global counters. -/
def initialState : ServerState :=
  { db := { qrcodes := [], stats := some { success_count := 0, fail_count := 0 } }
    adminStats := []
    globalSuccess := 0
    globalFail := 0 }

/-- The issuance endpoint lifted to the full server state. -/
def issueOp (st : ServerState) (q : QRCodeCreate) (freshId now : Nat) :
    ServerState :=
  { st with db := (create_qr_code st.db q freshId now).2 }

/-- One step of the issuance / redemption protocol: either the issuance
endpoint or the redemption endpoint runs once. -/
inductive Step : ServerState → ServerState → Prop where
  | issue (st : ServerState) (q : QRCodeCreate) (freshId now : Nat) :
      Step st (issueOp st q freshId now)
  | redeem (st : ServerState) (token : Option String) (oracle : Nat → Bool)
      (qr_code_id : Nat) (admin_telegram_id : Option String) (now : Nat) :
      Step st (check_qr_code token oracle st qr_code_id admin_telegram_id now).state

/-- The used_at timestamp is set exactly on used tickets. -/
def usedAtInv (st : ServerState) : Prop :=
  ∀ qc ∈ st.db.qrcodes, (qc.used_at ≠ none ↔ qc.status = QRCodeStatus.used)

/-! Concrete fixtures used by witnesses and counterexamples. -/

/-- A freshly issued ticket. -/
def tIssued : QRCode :=
  { id := 1, status := QRCodeStatus.issued, telegram_id := some "u1",
    user_first_name := some "Alice", user_username := some "alice",
    created_at := 0, issued_at := some 0, used_at := none }

/-- Server state holding just the freshly issued ticket. -/
def stIssued : ServerState :=
  { db := { qrcodes := [tIssued], stats := some { success_count := 0, fail_count := 0 } }
    adminStats := [], globalSuccess := 0, globalFail := 0 }

/-- An already used ticket (used_at set at time 2). -/
def tUsed : QRCode :=
  { id := 2, status := QRCodeStatus.used, telegram_id := some "u2",
    user_first_name := none, user_username := none,
    created_at := 0, issued_at := some 1, used_at := some 2 }

/-- Database holding just the used ticket. -/
def dbUsed : DB :=
  { qrcodes := [tUsed], stats := some { success_count := 1, fail_count := 0 } }

/-- Server state holding just the used ticket. -/
def stUsed : ServerState :=
  { db := dbUsed, adminStats := [], globalSuccess := 1, globalFail := 0 }

/-- The interleaved schedule read1; read2; act1; act2 of two concurrent
redemption requests on the same freshly issued ticket: both coroutines
execute their initial crud.get_qr_code load (line 124 of main.py, an
await point) before either executes the rest of the handler, a schedule
the async scheduler permits.  Both snapshots therefore show the ticket
still Issued. -/
def c1Run : CheckResult × CheckResult :=
  let snap := get_qr_code stIssued.db 1
  let r1 := check_qr_body none (fun _ => true) snap stIssued 1 (some "scanner1") 10
  let r2 := check_qr_body none (fun _ => true) snap r1.state 1 (some "scanner2") 11
  (r1, r2)

/-- Scenario state: ticket issued for owner u1 from the startup state. -/
def c2St1 : ServerState :=
  { initialState with
    db := (create_qr_code initialState.db
      { telegram_id := "u1", user_first_name := none, user_username := none } 1 0).2 }

/-- Scenario step 1: redeem the freshly issued ticket. -/
def c2R1 : CheckResult := check_qr_code none (fun _ => true) c2St1 1 (some "a") 1

/-- Scenario step 2: redeem the same ticket again. -/
def c2R2 : CheckResult := check_qr_code none (fun _ => true) c2R1.state 1 (some "a") 2

/-- Scenario step 3: redeem an unknown ticket id. -/
def c2R3 : CheckResult := check_qr_code none (fun _ => true) c2R2.state 99 (some "a") 3

/-! Helper lemmas. -/

/-- The derived BEq on statuses agrees with decidable equality. -/
@[simp] theorem qstatus_beq (a b : QRCodeStatus) : (a == b) = decide (a = b) := by
  cases a <;> cases b <;> rfl

/-- find? commutes with map whenever the map preserves the predicate. -/
theorem find?_map_pred {α : Type} (p : α → Bool) (f : α → α) (l : List α)
    (hf : ∀ x, p (f x) = p x) : (l.map f).find? p = (l.find? p).map f := by
  induction l with
  | nil => rfl
  | cons x xs ih =>
    by_cases hx : p x
    · rw [List.map_cons, List.find?_cons_of_pos _ ((hf x).trans hx),
        List.find?_cons_of_pos _ hx]
      rfl
    · rw [List.map_cons,
        List.find?_cons_of_neg _ (by rw [hf x]; exact hx),
        List.find?_cons_of_neg _ hx, ih]

/-- Appending a row whose telegram_id matches makes the owner lookup hit it
when the lookup previously missed. -/
theorem get_by_tid_append_new (db : DB) (tid : String) (r : QRCode)
    (h : get_qr_code_by_telegram_id db tid = none) (hr : r.telegram_id = some tid) :
    get_qr_code_by_telegram_id { db with qrcodes := db.qrcodes ++ [r] } tid =
      some r := by
  unfold get_qr_code_by_telegram_id at h ⊢
  rw [List.find?_append, h, Option.none_or]
  simp [List.find?, hr]

/-- Overwriting the row found at `id` makes the id lookup return the new
row. -/
theorem find?_map_set (l : List QRCode) (id : Nat) (qc u : QRCode)
    (h : l.find? (fun q => q.id == id) = some qc) (hu : u.id = qc.id) :
    List.find? (fun q => q.id == id)
      (List.map (fun x => if x.id = id then u else x) l) = some u := by
  have hqc := List.find?_some h
  simp only [Nat.beq_eq_true_eq] at hqc
  rw [find?_map_pred]
  · rw [h]
    simp [hu, hqc]
  · intro x
    by_cases hx : x.id = id
    · simp [hx, hu, hqc]
    · simp [hx]

/-- Overwriting the row found at a different id leaves the id lookup
unchanged. -/
theorem find?_map_set_ne (l : List QRCode) (rid id : Nat) (qc u : QRCode)
    (h : l.find? (fun q => q.id == id) = some qc)
    (hu : u.id = rid) (hne : id ≠ rid) :
    (l.map (fun x => if x.id = rid then u else x)).find? (fun q => q.id == id) =
      some qc := by
  have hqc := List.find?_some h
  simp only [Nat.beq_eq_true_eq] at hqc
  rw [find?_map_pred]
  · rw [h]
    simp [hqc, hne]
  · intro x
    by_cases hx : x.id = rid
    · simp [hx, hu]
    · simp [hx]

/-- The AlreadyUsed branch: the response carries the replay message and the
qrcodes table is untouched. -/
theorem check_used_frame (token : Option String) (oracle : Nat → Bool)
    (st : ServerState) (qr_code_id : Nat) (admin : Option String) (now : Nat)
    (qc : QRCode) (h : get_qr_code st.db qr_code_id = some qc)
    (hs : qc.status = QRCodeStatus.used) :
    (check_qr_code token oracle st qr_code_id admin now).response.message =
      "⚠️ Код уже был использован" ∧
    (check_qr_code token oracle st qr_code_id admin now).state.db.qrcodes =
      st.db.qrcodes := by
  unfold check_qr_code
  rw [h]
  cases admin <;> constructor <;> simp [check_qr_body, hs]

/-- The Issued branch: the response reports success and afterwards the row
holds status used with used_at set to now. -/
theorem check_issued_ok (token : Option String) (oracle : Nat → Bool)
    (st : ServerState) (qr_code_id : Nat) (admin : Option String)
    (now1 : Nat) (qc : QRCode)
    (h : get_qr_code st.db qr_code_id = some qc)
    (hs : qc.status = QRCodeStatus.issued) :
    (check_qr_code token oracle st qr_code_id admin now1).response.status = "ok" ∧
    get_qr_code (check_qr_code token oracle st qr_code_id admin now1).state.db
        qr_code_id =
      some { qc with status := QRCodeStatus.used, used_at := some now1 } := by
  have hfind : st.db.qrcodes.find? (fun q => q.id == qr_code_id) = some qc := h
  unfold check_qr_code
  rw [h]
  cases admin <;>
  · constructor
    · simp [check_qr_body, hs]
    · have hdb : ∀ (adm : Option String),
          (check_qr_body token oracle (some qc) st qr_code_id adm now1).state.db.qrcodes
            = st.db.qrcodes.map (fun x => if x.id = qr_code_id then
                { qc with status := QRCodeStatus.used, used_at := some now1 } else x) := by
        intro adm
        cases adm <;>
          simp [check_qr_body, hs, update_qr_code_status, get_qr_code, hfind]
      rw [get_qr_code, hdb]
      exact find?_map_set _ _ _ _ hfind rfl

/-- A redemption call either leaves the qrcodes table unchanged, or the
snapshot found an Issued ticket and the table is that ticket overwritten
with status used. -/
theorem check_qrcodes_cases (token : Option String) (oracle : Nat → Bool)
    (st : ServerState) (qr_code_id : Nat) (admin : Option String) (now : Nat) :
    (check_qr_code token oracle st qr_code_id admin now).state.db.qrcodes =
      st.db.qrcodes ∨
    ∃ qc, get_qr_code st.db qr_code_id = some qc ∧
      qc.status = QRCodeStatus.issued ∧
      (check_qr_code token oracle st qr_code_id admin now).state.db.qrcodes =
        st.db.qrcodes.map (fun x => if x.id = qr_code_id then
          { qc with status := QRCodeStatus.used, used_at := some now } else x) := by
  unfold check_qr_code
  cases h : get_qr_code st.db qr_code_id with
  | none => left; cases admin <;> simp [check_qr_body]
  | some qc =>
    obtain ⟨qid, s, tid, fn, un, ca, ia, ua⟩ := qc
    cases s
    case issued =>
      right
      refine ⟨_, rfl, rfl, ?_⟩
      have hfind : st.db.qrcodes.find? (fun q => q.id == qr_code_id) =
          some { id := qid, status := QRCodeStatus.issued, telegram_id := tid,
                 user_first_name := fn, user_username := un, created_at := ca,
                 issued_at := ia, used_at := ua } := h
      cases admin <;>
        simp [check_qr_body, update_qr_code_status, get_qr_code, hfind]
    all_goals (left; cases admin <;> simp [check_qr_body])

/-- One protocol step can only keep a ticket's status or advance it from
issued to used. -/
theorem step_find_adv (st st' : ServerState) (hstep : Step st st')
    (id : Nat) (qc : QRCode) (h : get_qr_code st.db id = some qc) :
    ∃ qc', get_qr_code st'.db id = some qc' ∧
      (qc'.status = qc.status ∨
        (qc.status = QRCodeStatus.issued ∧ qc'.status = QRCodeStatus.used)) := by
  cases hstep with
  | issue q f n =>
    cases hf : get_qr_code_by_telegram_id st.db q.telegram_id with
    | some e =>
      refine ⟨qc, ?_, Or.inl rfl⟩
      have : (issueOp st q f n).db.qrcodes = st.db.qrcodes := by
        simp [issueOp, create_qr_code, hf]
      rw [get_qr_code, this]
      exact h
    | none =>
      refine ⟨qc, ?_, Or.inl rfl⟩
      have hdb : (issueOp st q f n).db.qrcodes = st.db.qrcodes ++
          [{ id := f, status := QRCodeStatus.issued, telegram_id := some q.telegram_id,
             user_first_name := q.user_first_name, user_username := q.user_username,
             created_at := n, issued_at := some n, used_at := none }] := by
        simp [issueOp, create_qr_code, hf]
      rw [get_qr_code, hdb, List.find?_append]
      rw [show st.db.qrcodes.find? (fun q => q.id == id) = some qc from h]
      rfl
  | redeem token oracle rid admin now =>
    rcases check_qrcodes_cases token oracle st rid admin now with
      hsame | ⟨qc0, h0, hs0, hmap⟩
    · refine ⟨qc, ?_, Or.inl rfl⟩
      rw [get_qr_code, hsame]
      exact h
    · by_cases hid : id = rid
      · subst hid
        have heq : qc0 = qc := Option.some.inj (h0.symm.trans h)
        subst heq
        refine ⟨{ qc0 with status := QRCodeStatus.used, used_at := some now }, ?_, ?_⟩
        · rw [get_qr_code, hmap]
          exact find?_map_set _ _ _ _ h rfl
        · exact Or.inr ⟨hs0, rfl⟩
      · refine ⟨qc, ?_, Or.inl rfl⟩
        rw [get_qr_code, hmap]
        have hq0 := List.find?_some h0
        simp only [Nat.beq_eq_true_eq] at hq0
        exact find?_map_set_ne _ _ _ _ _ h hq0 hid

/-- Along any sequence of protocol steps a ticket stays present and its
status only stays or advances from issued to used. -/
theorem reach_find_adv (st st' : ServerState)
    (hreach : Relation.ReflTransGen Step st st') (id : Nat) (qc : QRCode)
    (h : get_qr_code st.db id = some qc) :
    ∃ q'', get_qr_code st'.db id = some q'' ∧
      (q''.status = qc.status ∨
        (qc.status = QRCodeStatus.issued ∧ q''.status = QRCodeStatus.used)) := by
  induction hreach with
  | refl => exact ⟨qc, h, Or.inl rfl⟩
  | tail hab hbc ih =>
    obtain ⟨qb, hqb, hadv⟩ := ih
    obtain ⟨qc2, hqc2, hadv2⟩ := step_find_adv _ _ hbc id qb hqb
    refine ⟨qc2, hqc2, ?_⟩
    rcases hadv with hadv | ⟨hi, hu⟩ <;> rcases hadv2 with hadv2 | ⟨hi2, hu2⟩
    · exact Or.inl (hadv2.trans hadv)
    · exact Or.inr ⟨hadv ▸ hi2, hu2⟩
    · exact Or.inr ⟨hi, hadv2.trans hu⟩
    · rw [hu] at hi2; exact absurd hi2 (by decide)

/-- One protocol step preserves the used_at / status coupling. -/
theorem step_preserves_usedAtInv (st st' : ServerState) (hstep : Step st st')
    (hinv : usedAtInv st) : usedAtInv st' := by
  cases hstep with
  | issue q f n =>
    intro qc hqc
    cases hf : get_qr_code_by_telegram_id st.db q.telegram_id with
    | some e =>
      have : (issueOp st q f n).db.qrcodes = st.db.qrcodes := by
        simp [issueOp, create_qr_code, hf]
      rw [this] at hqc
      exact hinv qc hqc
    | none =>
      have hdb : (issueOp st q f n).db.qrcodes = st.db.qrcodes ++
          [{ id := f, status := QRCodeStatus.issued, telegram_id := some q.telegram_id,
             user_first_name := q.user_first_name, user_username := q.user_username,
             created_at := n, issued_at := some n, used_at := none }] := by
        simp [issueOp, create_qr_code, hf]
      rw [hdb, List.mem_append] at hqc
      rcases hqc with hqc | hqc
      · exact hinv qc hqc
      · rw [List.mem_singleton] at hqc
        subst hqc
        simp
  | redeem token oracle rid admin now =>
    intro qc hqc
    rcases check_qrcodes_cases token oracle st rid admin now with
      hsame | ⟨qc0, h0, hs0, hmap⟩
    · rw [hsame] at hqc
      exact hinv qc hqc
    · rw [hmap, List.mem_map] at hqc
      obtain ⟨x, hx, hfx⟩ := hqc
      by_cases hxid : x.id = rid
      · rw [if_pos hxid] at hfx
        subst hfx
        simp
      · rw [if_neg hxid] at hfx
        subst hfx
        exact hinv x hx

/-! Claim theorems. -/

/-- C1: the claim states that the persist of the Issued-to-Used transition
is conditioned on the ticket still being Issued at write time, so that two
concurrent redemptions of the same freshly issued ticket yield exactly one
Success and one AlreadyUsed.  The code has no such condition:
crud.update_qr_code_status overwrites the status unconditionally, so under
the interleaving in which both handlers take their ticket snapshot before
either writes (c1Run), both redemptions return Success ("ok"), the
persisted success counter is incremented twice, and the final status is
used.  This theorem exhibits that execution. -/
theorem c1_concurrent_double_success :
    c1Run.1.response.status = "ok" ∧ c1Run.2.response.status = "ok" ∧
    get_stats c1Run.2.state.db = (2, 0) ∧
    (get_qr_code c1Run.2.state.db 1).map (fun q => q.status) =
      some QRCodeStatus.used := by
  decide

/-- C2 counterexample: a Redeem call whose request body carries no
admin_telegram_id reaches the NotFound outcome (HTTP 404) yet leaves the
persisted fail counter at 0 instead of incrementing it by one, refuting
the claim as stated for every Redeem call. -/
theorem c2_counterexample :
    (check_qr_code none (fun _ => true) initialState 99 none 5).response.statusCode
      = 404 ∧
    get_stats (check_qr_code none (fun _ => true) initialState 99 none 5).state.db
      = (0, 0) ∧
    get_stats (check_qr_code none (fun _ => true) initialState 99 none 5).state.db ≠
      ((get_stats initialState.db).1, (get_stats initialState.db).2 + 1) := by
  decide

/-- C2 amended: for every Redeem call that carries an admin_telegram_id,
the persisted counters move by exactly one: success_count + 1 on a Success
("ok") response and fail_count + 1 on every error response (NotFound,
AlreadyUsed, InvalidState); and the sequential scenario issue for u1,
redeem (Success), redeem again (AlreadyUsed), redeem unknown id (NotFound),
with each redeem carrying an admin_telegram_id, ends with success_count = 1
and fail_count = 2. -/
theorem c2_amended :
    (∀ (token : Option String) (oracle : Nat → Bool) (st : ServerState)
      (qr_code_id : Nat) (a : String) (now : Nat),
      get_stats (check_qr_code token oracle st qr_code_id (some a) now).state.db =
        if (check_qr_code token oracle st qr_code_id (some a) now).response.status = "ok"
        then ((get_stats st.db).1 + 1, (get_stats st.db).2)
        else ((get_stats st.db).1, (get_stats st.db).2 + 1)) ∧
    c2R1.response.status = "ok" ∧
    c2R2.response.message = "⚠️ Код уже был использован" ∧
    c2R3.response.statusCode = 404 ∧
    get_stats c2R3.state.db = (1, 2) := by
  refine ⟨?_, by decide, by decide, by decide, by decide⟩
  intro token oracle st qr_code_id a now
  unfold check_qr_code
  cases h : get_qr_code st.db qr_code_id with
  | none => cases hs : st.db.stats <;> simp [check_qr_body, get_stats, hs]
  | some qc =>
    obtain ⟨qid, s, tid, fn, un, ca, ia, ua⟩ := qc
    cases s <;> cases hs : st.db.stats <;>
      simp [check_qr_body, get_stats, hs, update_qr_code_status, get_qr_code, h] <;>
      simp [get_qr_code] at h <;> simp [h]

/-- C3: a redemption call whose request body carries no admin_telegram_id
leaves the persisted counters unchanged, whatever the outcome: every
counter increment and counter commit sits inside the admin_telegram_id
branch of the handler. -/
theorem c3_counters_frame (token : Option String) (oracle : Nat → Bool)
    (st : ServerState) (qr_code_id now : Nat) :
    get_stats (check_qr_code token oracle st qr_code_id none now).state.db =
      get_stats st.db := by
  unfold check_qr_code
  cases h : get_qr_code st.db qr_code_id with
  | none => cases hs : st.db.stats <;> simp [check_qr_body, get_stats, hs]
  | some qc =>
    obtain ⟨qid, s, tid, fn, un, ca, ia, ua⟩ := qc
    cases s <;> cases hs : st.db.stats <;>
      simp [check_qr_body, get_stats, hs, update_qr_code_status, get_qr_code, h] <;>
      simp [get_qr_code] at h <;> simp [h]

/-- C4: issuance is idempotent: a second create_qr_code call for the same
telegram_id returns exactly the ticket the first call returned and leaves
the database exactly as the first call left it — no second ticket is
created and no field (issued_at included) of the existing ticket changes,
whatever fresh id and clock the second call is given. -/
theorem c4_issue_idempotent (db : DB) (q : QRCodeCreate) (f1 n1 f2 n2 : Nat) :
    create_qr_code (create_qr_code db q f1 n1).2 q f2 n2 =
      ((create_qr_code db q f1 n1).1, (create_qr_code db q f1 n1).2) := by
  cases h : get_qr_code_by_telegram_id db q.telegram_id with
  | some e => simp [create_qr_code, h]
  | none =>
    simp only [create_qr_code, h]
    rw [get_by_tid_append_new db q.telegram_id _ h rfl]

/-- C5: redeeming a freshly issued ticket returns Success and leaves the
row with status used and used_at = now1; a second redemption of the same
id reports the already-used message and leaves the row — status used,
used_at still now1 — unchanged. -/
theorem c5_redeem_round_trip (token : Option String) (oracle : Nat → Bool)
    (st : ServerState) (qr_code_id : Nat) (admin : Option String)
    (now1 now2 : Nat) (qc : QRCode)
    (h : get_qr_code st.db qr_code_id = some qc)
    (hs : qc.status = QRCodeStatus.issued) :
    (check_qr_code token oracle st qr_code_id admin now1).response.status = "ok" ∧
    get_qr_code (check_qr_code token oracle st qr_code_id admin now1).state.db
        qr_code_id =
      some { qc with status := QRCodeStatus.used, used_at := some now1 } ∧
    (check_qr_code token oracle
        (check_qr_code token oracle st qr_code_id admin now1).state
        qr_code_id admin now2).response.message = "⚠️ Код уже был использован" ∧
    get_qr_code (check_qr_code token oracle
        (check_qr_code token oracle st qr_code_id admin now1).state
        qr_code_id admin now2).state.db qr_code_id =
      some { qc with status := QRCodeStatus.used, used_at := some now1 } := by
  have h1 := check_issued_ok token oracle st qr_code_id admin now1 qc h hs
  have h2 := check_used_frame token oracle
    (check_qr_code token oracle st qr_code_id admin now1).state qr_code_id admin now2
    { qc with status := QRCodeStatus.used, used_at := some now1 } h1.2 rfl
  refine ⟨h1.1, h1.2, h2.1, ?_⟩
  rw [get_qr_code, h2.2]
  exact h1.2

/-- C5 witness: the round trip evaluated on the concrete issued ticket. -/
theorem c5_witness :
    (check_qr_code none (fun _ => true) stIssued 1 (some "a") 10).response.status
      = "ok" ∧
    get_qr_code (check_qr_code none (fun _ => true) stIssued 1 (some "a") 10).state.db
        1 =
      some { tIssued with status := QRCodeStatus.used, used_at := some 10 } ∧
    (check_qr_code none (fun _ => true)
        (check_qr_code none (fun _ => true) stIssued 1 (some "a") 10).state
        1 (some "a") 11).response.message = "⚠️ Код уже был использован" ∧
    get_qr_code (check_qr_code none (fun _ => true)
        (check_qr_code none (fun _ => true) stIssued 1 (some "a") 10).state
        1 (some "a") 11).state.db 1 =
      some { tIssued with status := QRCodeStatus.used, used_at := some 10 } :=
  c5_redeem_round_trip none (fun _ => true) stIssued 1 (some "a") 10 11 tIssued
    rfl rfl

/-- C6 counterexample: the generic status-update operation (crud.
update_qr_code_status, exposed by the PUT status endpoint) reverts a used
ticket back to issued, refuting the claim that no operation moves a status
backwards and that used is terminal. -/
theorem c6_counterexample :
    tUsed.status = QRCodeStatus.used ∧
    (get_qr_code (update_qr_code_status dbUsed 2 QRCodeStatus.issued 5).2 2).map
      (fun q => q.status) = some QRCodeStatus.issued ∧
    QRCodeStatus.issued ≠ QRCodeStatus.used := by
  decide

/-- C6 amended: under the issuance and redemption operations (the Step
relation) a ticket's status never moves backwards: along any sequence of
steps it either stays what it was or advances from issued to used; in
particular used and invalid are terminal for these operations.  The
generic status-update endpoint, which can overwrite any status, is the
sole exception and is excluded. -/
theorem c6_amended (st st' : ServerState)
    (hreach : Relation.ReflTransGen Step st st') (id : Nat) (qc qc' : QRCode)
    (h : get_qr_code st.db id = some qc)
    (h' : get_qr_code st'.db id = some qc') :
    (qc'.status = qc.status ∨
      (qc.status = QRCodeStatus.issued ∧ qc'.status = QRCodeStatus.used)) ∧
    (qc.status = QRCodeStatus.used → qc'.status = QRCodeStatus.used) ∧
    (qc.status = QRCodeStatus.invalid → qc'.status = QRCodeStatus.invalid) := by
  obtain ⟨q'', hq'', hadv⟩ := reach_find_adv st st' hreach id qc h
  rw [h'] at hq''
  obtain rfl := (Option.some.inj hq'').symm
  refine ⟨hadv, ?_, ?_⟩
  · intro hused
    rcases hadv with hadv | ⟨hi, hu⟩
    · exact hadv.trans hused
    · exact hu
  · intro hinv
    rcases hadv with hadv | ⟨hi, hu⟩
    · rw [hinv] at hadv; exact hadv
    · rw [hinv] at hi; exact absurd hi (by decide)

/-- C6 witness: one redemption step on the concrete issued ticket advances
its status from issued to used. -/
theorem c6_witness :
    ((({ tIssued with status := QRCodeStatus.used, used_at := some 10 } : QRCode).status
        = tIssued.status ∨
      (tIssued.status = QRCodeStatus.issued ∧
        ({ tIssued with status := QRCodeStatus.used, used_at := some 10 } : QRCode).status
          = QRCodeStatus.used)) ∧
    (tIssued.status = QRCodeStatus.used →
      ({ tIssued with status := QRCodeStatus.used, used_at := some 10 } : QRCode).status
        = QRCodeStatus.used) ∧
    (tIssued.status = QRCodeStatus.invalid →
      ({ tIssued with status := QRCodeStatus.used, used_at := some 10 } : QRCode).status
        = QRCodeStatus.invalid)) :=
  c6_amended stIssued (check_qr_code none (fun _ => true) stIssued 1 none 10).state
    (Relation.ReflTransGen.single
      (Step.redeem stIssued none (fun _ => true) 1 none 10))
    1 tIssued { tIssued with status := QRCodeStatus.used, used_at := some 10 }
    rfl rfl

/-- C7 counterexample: the generic status-update operation moves a used
ticket (used_at set) to invalid while leaving used_at set, refuting the
claim that used_at is set iff the status is used for every operation
sequence. -/
theorem c7_counterexample :
    ¬ usedAtInv { db := (update_qr_code_status dbUsed 2 QRCodeStatus.invalid 5).2,
                  adminStats := [], globalSuccess := 1, globalFail := 0 } := by
  unfold usedAtInv
  decide

/-- C7 amended: in every state reachable from startup by issuance and
redemption operations (the Step relation), a ticket's used_at is set iff
its status is used.  The generic status-update endpoint, which can
overwrite any status without clearing used_at, is excluded. -/
theorem c7_amended (st' : ServerState)
    (hreach : Relation.ReflTransGen Step initialState st') : usedAtInv st' := by
  induction hreach with
  | refl => intro qc hqc; simp [initialState] at hqc
  | tail hab hbc ih => exact step_preserves_usedAtInv _ _ hbc ih

/-- C7 witness: the invariant holds after one concrete issuance step. -/
theorem c7_witness :
    usedAtInv (issueOp initialState
      { telegram_id := "u1", user_first_name := none, user_username := none } 1 0) :=
  c7_amended _ (Relation.ReflTransGen.single
    (Step.issue initialState
      { telegram_id := "u1", user_first_name := none, user_username := none } 1 0))

/-- C8: a redemption of an existing ticket whose status is not issued is
rejected with HTTP 400 and an error body; the used case carries the
already-used message, every other non-issued case carries the invalid-code
message with the offending status value embedded; both are distinct from
the not-found message, and the already-used message differs from the
invalid-code message for every status value. -/
theorem c8_reject_non_issued (token : Option String) (oracle : Nat → Bool)
    (st : ServerState) (qr_code_id : Nat) (admin : Option String) (now : Nat)
    (qc : QRCode) (h : get_qr_code st.db qr_code_id = some qc)
    (hs : qc.status ≠ QRCodeStatus.issued) :
    (check_qr_code token oracle st qr_code_id admin now).response.statusCode = 400 ∧
    (check_qr_code token oracle st qr_code_id admin now).response.status = "error" ∧
    (qc.status = QRCodeStatus.used →
      (check_qr_code token oracle st qr_code_id admin now).response.message =
        "⚠️ Код уже был использован") ∧
    (qc.status ≠ QRCodeStatus.used →
      (check_qr_code token oracle st qr_code_id admin now).response.message =
        "❓ Неверный статус кода: " ++ qc.status.value) ∧
    (check_qr_code token oracle st qr_code_id admin now).response.message ≠
      "❌ Код не найден" ∧
    (∀ s : QRCodeStatus,
      ("⚠️ Код уже был использован" : String) ≠
        "❓ Неверный статус кода: " ++ s.value) := by
  unfold check_qr_code
  rw [h]
  obtain ⟨qid, s, tid, fn, un, ca, ia, ua⟩ := qc
  simp only [ne_eq] at hs
  cases s
  case issued => exact absurd rfl hs
  all_goals
    cases admin <;>
      exact ⟨rfl, rfl,
        fun h1 => by first | rfl | exact absurd h1 (by simp),
        fun h2 => by first | rfl | exact absurd rfl h2,
        by simp [check_qr_body, QRCodeStatus.value] <;> decide,
        fun s2 => by cases s2 <;> decide⟩

/-- C8 witness: the rejection facts evaluated on the concrete used
ticket. -/
theorem c8_witness :
    (check_qr_code none (fun _ => true) stUsed 2 (some "a") 7).response.statusCode
      = 400 ∧
    (check_qr_code none (fun _ => true) stUsed 2 (some "a") 7).response.status
      = "error" ∧
    (tUsed.status = QRCodeStatus.used →
      (check_qr_code none (fun _ => true) stUsed 2 (some "a") 7).response.message =
        "⚠️ Код уже был использован") ∧
    (tUsed.status ≠ QRCodeStatus.used →
      (check_qr_code none (fun _ => true) stUsed 2 (some "a") 7).response.message =
        "❓ Неверный статус кода: " ++ tUsed.status.value) ∧
    (check_qr_code none (fun _ => true) stUsed 2 (some "a") 7).response.message ≠
      "❌ Код не найден" ∧
    (∀ s : QRCodeStatus,
      ("⚠️ Код уже был использован" : String) ≠
        "❓ Неверный статус кода: " ++ s.value) :=
  c8_reject_non_issued none (fun _ => true) stUsed 2 (some "a") 7 tUsed rfl
    (by decide)

/-- C9: the committed outcome of a redemption is independent of notification
delivery: for any two delivery oracles the handler returns the same
response and reaches the same server state (same tickets, same counters);
only the delivered flags of the attempted posts can differ, because the
bare except swallows every delivery failure. -/
theorem c9_notifier_independent (token : Option String) (o1 o2 : Nat → Bool)
    (st : ServerState) (qr_code_id : Nat) (admin : Option String) (now : Nat) :
    (check_qr_code token o1 st qr_code_id admin now).response =
      (check_qr_code token o2 st qr_code_id admin now).response ∧
    (check_qr_code token o1 st qr_code_id admin now).state =
      (check_qr_code token o2 st qr_code_id admin now).state := by
  unfold check_qr_code
  cases h : get_qr_code st.db qr_code_id with
  | none => cases admin <;> exact ⟨rfl, rfl⟩
  | some qc =>
    obtain ⟨qid, s, tid, fn, un, ca, ia, ua⟩ := qc
    cases s <;> cases admin <;> exact ⟨rfl, rfl⟩

/-- C10: when the singleton counters row does not exist the stats snapshot
endpoint returns success = 0 and fail = 0 rather than an error or a
not-found signal. -/
theorem c10_stats_default (l : List QRCode) :
    get_stats { qrcodes := l, stats := none } = (0, 0) := rfl
